import Mathlib

/-!
Verification of `flag_check.py` (Mars Revolutions 0.02, `gfx/flag_check.py`).

The script has three functions:
* `read_tags_from_file` — parses country tags from a countries.txt file;
* `validate_flags` — checks which required `.tga` flag files are missing;
* `create_missing_flags` — copies the template `GHO.tga` onto missing names.

Shallow embedding conventions:
* the filesystem is a list of paths of existing regular files
  (`os.path.isfile p` is membership);
* printed output is a list of strings accumulated in a `World`;
* the file-read performed by `read_tags_from_file` is an
  `Except String (List String)` argument (either the list of lines, or the
  error caught by the `except` clause);
* each `shutil.copy2` either succeeds (the target becomes a regular file)
  or raises, decided by an oracle `copyFail : String → Bool` on the target
  path, matching the per-file `try/except` in the source.
-/

namespace FlagCheck

/-- ASCII whitespace as matched by Python `str.strip` and the regex class
`\s` (space, tab, newline, carriage return, vertical tab, form feed). -/
def isPySpace (c : Char) : Bool :=
  c = ' ' || c = '\t' || c = '\n' || c = '\r' || c = '\x0b' || c = '\x0c'

/-- Characters of the regex class `[A-Z0-9]` used in the `re.match`
pattern `([A-Z0-9]\x7b3\x7d)\s*=` of `read_tags_from_file`. -/
def isTagChar (c : Char) : Bool :=
  ('A' ≤ c && c ≤ 'Z') || ('0' ≤ c && c ≤ '9')

/-- Python `line.strip()`: drop leading and trailing whitespace. -/
def pyStrip (s : String) : String :=
  String.mk (((s.data.dropWhile isPySpace).reverse.dropWhile isPySpace).reverse)

/-- The anchored regex `([A-Z0-9]\x7b3\x7d)\s*=` applied to the characters of a
stripped line: exactly three characters from `[A-Z0-9]`, then any run of
whitespace, then `=`; on success the captured three-character group. -/
def tag_match : List Char → Option String
  | c1 :: c2 :: c3 :: rest =>
    if isTagChar c1 && isTagChar c2 && isTagChar c3 then
      match rest.dropWhile isPySpace with
      | '=' :: _ => some (String.mk [c1, c2, c3])
      | _ => none
    else none
  | _ => none

/-- One iteration of the `for line in file` loop of `read_tags_from_file`:
strip the line, skip it when empty or starting with `#`, otherwise run the
tag regex. Returns the tag appended to `tags`, if any. -/
def process_line (line : String) : Option String :=
  match (pyStrip line).data with
  | [] => none
  | c :: cs => if c = '#' then none else tag_match (c :: cs)

/-- `read_tags_from_file`: on a successful read of the lines, collect the
tags matched line by line; on any exception, print a diagnostic and return
the empty list. Result: (tags, printed output). -/
def read_tags_from_file (input : Except String (List String)) :
    List String × List String :=
  match input with
  | Except.ok lines => (lines.filterMap process_line, [])
  | Except.error e => ([], ["Error reading tags file: " ++ e])

/-- `os.path.join` (POSIX) for a single relative or absolute component.
The slash tests are done on the character lists so that they evaluate by
kernel reduction. -/
def osPathJoin (d f : String) : String :=
  if ['/'].isPrefixOf f.data then f
  else if d = "" then f
  else if ['/'].isSuffixOf d.data then d ++ f
  else d ++ "/" ++ f

/-- The five `required_flags` templates of `validate_flags`, already
formatted with the tag (`"..."` `.format(tag=tag)` is concatenation). -/
def required_flags (tag : String) : List String :=
  [tag ++ ".tga", tag ++ "_fascist.tga", tag ++ "_communist.tga",
   tag ++ "_monarchy.tga", tag ++ "_republic.tga"]

/-- Program state: the set of regular files (as a list of paths) and the
lines printed so far. -/
structure World where
  fs : List String
  out : List String
  deriving Repr, DecidableEq

/-- `os.path.isfile`: the path is an existing regular file. -/
def isfile (fs : List String) (p : String) : Bool :=
  fs.contains p

/-- The nested `for tag in tags: for flag_template in required_flags:` loop
of `validate_flags`, appending each non-existing candidate filename to
`missing_flags`. -/
def validate_missing (fs : List String) (folder_path : String)
    (tags : List String) : List String :=
  tags.foldl (fun acc tag =>
    (required_flags tag).foldl (fun acc2 flag_file =>
      if isfile fs (osPathJoin folder_path flag_file) then acc2
      else acc2 ++ [flag_file]) acc) []

/-- `validate_flags`: computes the missing-list and prints either the
itemized report or the all-present message. Returns (missing list, new
world). The `auto_fix` parameter is accepted as in the source. -/
def validate_flags (w : World) (folder_path : String) (tags : List String)
    (auto_fix : Bool) : List String × World :=
  let missing_flags := validate_missing w.fs folder_path tags
  let printed :=
    if missing_flags.isEmpty then
      ["All required flag files are present!"]
    else
      "The following flag files are missing:"
        :: missing_flags.map (fun flag => "- " ++ flag)
        ++ ["\nPlease review the missing files and add them to the folder."]
  (missing_flags, ⟨w.fs, w.out ++ printed⟩)

/-- The `for flag_file in missing_flags` loop of `create_missing_flags`:
each `shutil.copy2` either succeeds (the target path becomes a regular
file, the name is recorded in `created_files`) or raises (caught: an error
line is printed and `success` is cleared, the loop continues). Returns
(success, created files, new world). -/
def copy_loop (copyFail : String → Bool) (folder_path : String) :
    List String → World → Bool × List String × World
  | [], w => (true, [], w)
  | flag_file :: rest, w =>
    let target_path := osPathJoin folder_path flag_file
    if copyFail target_path then
      let r := copy_loop copyFail folder_path rest
        ⟨w.fs, w.out ++ ["Error creating " ++ flag_file]⟩
      (false, r.2.1, r.2.2)
    else
      let r := copy_loop copyFail folder_path rest
        ⟨w.fs ++ [target_path], w.out⟩
      (r.1, flag_file :: r.2.1, r.2.2)

/-- `create_missing_flags`: fails immediately when the template
`GHO.tga` is not a regular file in the folder; otherwise copies the
template onto every missing name, then prints the list of created files
when nonempty. Returns (success, new world). -/
def create_missing_flags (copyFail : String → Bool) (w : World)
    (folder_path : String) (missing_flags : List String) : Bool × World :=
  let template_file := osPathJoin folder_path "GHO.tga"
  if !(isfile w.fs template_file) then
    (false, ⟨w.fs, w.out ++
      ["Error: Template file " ++ template_file ++ " not found."]⟩)
  else
    let r := copy_loop copyFail folder_path missing_flags w
    let w2 :=
      if r.2.1.isEmpty then r.2.2
      else ⟨r.2.2.fs, r.2.2.out ++
        ("\nCreated the following flag files:"
          :: r.2.1.map (fun flag => "- " ++ flag))⟩
    (r.1, w2)

/-! ### Helper lemmas -/

lemma dropWhile_append_of_all {p : Char → Bool} (l l' : List Char)
    (h : ∀ c ∈ l, p c = true) :
    (l ++ l').dropWhile p = l'.dropWhile p := by
  induction l with
  | nil => rfl
  | cons c t ih =>
    simp only [List.cons_append, List.dropWhile_cons,
      h c (List.mem_cons_self c t), if_true]
    exact ih fun c hc => h c (List.mem_cons_of_mem _ hc)

lemma isTagChar_ne_hash {c : Char} (h : isTagChar c = true) : ¬ c = '#' := by
  intro he
  subst he
  simp [isTagChar] at h

lemma isfile_iff_mem (fs : List String) (p : String) :
    isfile fs p = true ↔ p ∈ fs := by
  simp [isfile, List.elem_iff, List.contains]

lemma inner_foldl_eq_filter (fs : List String) (folder_path : String)
    (l acc : List String) :
    l.foldl (fun acc2 flag_file =>
        if isfile fs (osPathJoin folder_path flag_file) then acc2
        else acc2 ++ [flag_file]) acc
      = acc ++ l.filter
          (fun f => !(isfile fs (osPathJoin folder_path f))) := by
  induction l generalizing acc with
  | nil => simp
  | cons f t ih =>
    by_cases h : isfile fs (osPathJoin folder_path f) = true
    · simp [List.foldl_cons, h, ih]
    · simp only [Bool.not_eq_true] at h
      simp [List.foldl_cons, h, ih, List.filter_cons]

lemma foldl_append_flatMap (g : String → List String) :
    ∀ (l acc : List String),
    l.foldl (fun acc x => acc ++ g x) acc = acc ++ l.flatMap g := by
  intro l
  induction l with
  | nil => intro acc; simp
  | cons x t ih =>
    intro acc
    simp [List.foldl_cons, ih, List.flatMap_cons, List.append_assoc]

lemma validate_missing_foldl (fs : List String) (folder_path : String) :
    ∀ (tags acc : List String),
    tags.foldl (fun acc tag =>
        (required_flags tag).foldl (fun acc2 flag_file =>
          if isfile fs (osPathJoin folder_path flag_file) then acc2
          else acc2 ++ [flag_file]) acc) acc
      = acc ++ tags.flatMap (fun tag => (required_flags tag).filter
          (fun f => !(isfile fs (osPathJoin folder_path f)))) := by
  intro tags acc
  have h1 : (fun (acc : List String) (tag : String) =>
      (required_flags tag).foldl (fun acc2 flag_file =>
        if isfile fs (osPathJoin folder_path flag_file) then acc2
        else acc2 ++ [flag_file]) acc)
      = fun acc tag => acc ++ (required_flags tag).filter
          (fun f => !(isfile fs (osPathJoin folder_path f))) := by
    funext a tag
    exact inner_foldl_eq_filter fs folder_path (required_flags tag) a
  rw [h1]
  exact foldl_append_flatMap _ tags acc

lemma validate_missing_eq (fs : List String) (folder_path : String)
    (tags : List String) :
    validate_missing fs folder_path tags
      = tags.flatMap (fun tag => (required_flags tag).filter
          (fun f => !(isfile fs (osPathJoin folder_path f)))) := by
  simpa [validate_missing] using validate_missing_foldl fs folder_path tags []

lemma copy_loop_spec (copyFail : String → Bool) (folder_path : String) :
    ∀ (missing : List String) (w : World),
    copy_loop copyFail folder_path missing w =
      (missing.all (fun f => !(copyFail (osPathJoin folder_path f))),
       missing.filter (fun f => !(copyFail (osPathJoin folder_path f))),
       ⟨w.fs ++ (missing.filter
            (fun f => !(copyFail (osPathJoin folder_path f)))).map
            (fun f => osPathJoin folder_path f),
        w.out ++ (missing.filter
            (fun f => copyFail (osPathJoin folder_path f))).map
            (fun f => "Error creating " ++ f)⟩) := by
  intro missing
  induction missing with
  | nil =>
    intro w
    simp [copy_loop]
  | cons f t ih =>
    intro w
    cases hc : copyFail (osPathJoin folder_path f) with
    | true =>
      simp [copy_loop, hc, ih, List.filter_cons, List.all_cons]
    | false =>
      simp [copy_loop, hc, ih, List.filter_cons, List.all_cons,
        List.append_assoc]

lemma process_line_eq_some {line : String} {c1 c2 c3 : Char}
    {ws rest : List Char}
    (h1 : isTagChar c1 = true) (h2 : isTagChar c2 = true)
    (h3 : isTagChar c3 = true)
    (hws : ∀ c ∈ ws, isPySpace c = true)
    (hline : (pyStrip line).data = c1 :: c2 :: c3 :: (ws ++ '=' :: rest)) :
    process_line line = some (String.mk [c1, c2, c3]) := by
  have hdrop : (ws ++ '=' :: rest).dropWhile isPySpace = '=' :: rest := by
    rw [dropWhile_append_of_all ws _ hws]
    simp [List.dropWhile_cons, isPySpace]
  have htm : tag_match (c1 :: c2 :: c3 :: (ws ++ '=' :: rest))
      = some (String.mk [c1, c2, c3]) := by
    simp only [tag_match, h1, h2, h3, Bool.and_self, if_true]
    rw [hdrop]
    rfl
  unfold process_line
  rw [hline]
  show (if c1 = '#' then none
    else tag_match (c1 :: c2 :: c3 :: (ws ++ '=' :: rest)))
      = some (String.mk [c1, c2, c3])
  rw [if_neg (isTagChar_ne_hash h1), htm]

/-! ### Claim theorems -/

/-- Claim C2, counterexample: the spec says a one-to-three-character
declaration such as `AB = x` yields the identifier `AB`, but the code
regex requires exactly three characters, so `AB = x` yields nothing. -/
theorem C2_counterexample :
    (read_tags_from_file (Except.ok ["AB = x"])).1 = []
    ∧ (read_tags_from_file (Except.ok ["AB = x"])).1 ≠ ["AB"] := by
  constructor
  · rfl
  · decide

/-- Claim C2 (amended): for every input line that, after trimming,
consists of exactly three characters from `[A-Z0-9]` followed by optional
whitespace and `=`, `read_tags_from_file` appends the matched
three-character identifier to its result. -/
theorem C2_amended (pre post : List String) (line : String)
    (c1 c2 c3 : Char) (ws rest : List Char)
    (h1 : isTagChar c1 = true) (h2 : isTagChar c2 = true)
    (h3 : isTagChar c3 = true)
    (hws : ∀ c ∈ ws, isPySpace c = true)
    (hline : (pyStrip line).data = c1 :: c2 :: c3 :: (ws ++ '=' :: rest)) :
    (read_tags_from_file (Except.ok (pre ++ line :: post))).1
      = (read_tags_from_file (Except.ok pre)).1
        ++ String.mk [c1, c2, c3] :: (read_tags_from_file (Except.ok post)).1 := by
  simp [read_tags_from_file, List.filterMap_append, List.filterMap_cons,
    process_line_eq_some h1 h2 h3 hws hline]

/-- Witness for C2_amended: the line `AB5 = Mars` between a comment line
and another declaration contributes exactly the tag `AB5`. -/
theorem C2_amended_witness :
    (read_tags_from_file (Except.ok (["# comment"] ++ "AB5 = Mars" :: ["ZZZ = q"]))).1
      = (read_tags_from_file (Except.ok ["# comment"])).1
        ++ String.mk ['A', 'B', '5']
          :: (read_tags_from_file (Except.ok ["ZZZ = q"])).1 :=
  C2_amended ["# comment"] ["ZZZ = q"] "AB5 = Mars" 'A' 'B' '5'
    [' '] [' ', 'M', 'a', 'r', 's'] (by decide) (by decide) (by decide)
    (by decide) (by decide)

/-- Claim C7: a line that is empty after trimming, or whose first
character after trimming is `#`, contributes no identifier; a well-formed
line `ABC = description` contributes `ABC`; duplicate identifiers are kept
in file order, not removed. -/
theorem C7_skip_comments_and_duplicates (pre post : List String)
    (line : String)
    (h : (pyStrip line).data = []
      ∨ (pyStrip line).data.head? = some '#') :
    (read_tags_from_file (Except.ok (pre ++ line :: post))).1
        = (read_tags_from_file (Except.ok (pre ++ post))).1
    ∧ (read_tags_from_file (Except.ok ["ABC = description"])).1 = ["ABC"]
    ∧ (read_tags_from_file (Except.ok ["ABC = a", "ABC = b"])).1
        = ["ABC", "ABC"] := by
  have hpl : process_line line = none := by
    unfold process_line
    rcases h with h | h
    · rw [h]
    · cases hd : (pyStrip line).data with
      | nil => rfl
      | cons c cs =>
        rw [hd] at h
        simp only [List.head?_cons, Option.some.injEq] at h
        show (if c = '#' then none else tag_match (c :: cs)) = none
        rw [if_pos h]
  refine ⟨?_, by decide, by decide⟩
  simp [read_tags_from_file, List.filterMap_append, List.filterMap_cons, hpl]

/-- Witness for C7: the comment line between two declarations is ignored,
so the result equals that of the file without it. -/
theorem C7_witness :
    (read_tags_from_file
        (Except.ok (["AAA = a"] ++ "# BBB = b" :: ["CCC = c"]))).1
      = (read_tags_from_file (Except.ok (["AAA = a"] ++ ["CCC = c"]))).1
    ∧ (read_tags_from_file (Except.ok ["ABC = description"])).1 = ["ABC"]
    ∧ (read_tags_from_file (Except.ok ["ABC = a", "ABC = b"])).1
        = ["ABC", "ABC"] :=
  C7_skip_comments_and_duplicates ["AAA = a"] ["CCC = c"] "# BBB = b"
    (by decide)

/-- Claim C8: when opening or reading the tag file raises any error,
`read_tags_from_file` catches it, prints a diagnostic, and returns the
empty sequence. -/
theorem C8_read_error_gives_empty (e : String) :
    read_tags_from_file (Except.error e)
      = ([], ["Error reading tags file: " ++ e]) := rfl

/-- Claim C1: `validate_flags` returns exactly the candidate filenames
(the five suffix templates applied to each identifier) that do not exist
as regular files; all present gives the empty list, and exactly one absent
candidate gives a length-1 list holding exactly that filename. -/
theorem C1_missing_characterization (w : World) (folder_path : String)
    (tags : List String) (auto_fix : Bool) :
    (∀ f, f ∈ (validate_flags w folder_path tags auto_fix).1 ↔
       (f ∈ tags.flatMap required_flags
         ∧ isfile w.fs (osPathJoin folder_path f) = false))
    ∧ ((∀ f ∈ tags.flatMap required_flags,
          isfile w.fs (osPathJoin folder_path f) = true) →
        (validate_flags w folder_path tags auto_fix).1 = [])
    ∧ ((tags.flatMap required_flags).countP
          (fun f => !(isfile w.fs (osPathJoin folder_path f))) = 1 →
        ∃ f, (validate_flags w folder_path tags auto_fix).1 = [f]
          ∧ f ∈ tags.flatMap required_flags
          ∧ isfile w.fs (osPathJoin folder_path f) = false) := by
  have hmiss : (validate_flags w folder_path tags auto_fix).1
      = (tags.flatMap required_flags).filter
          (fun f => !(isfile w.fs (osPathJoin folder_path f))) := by
    show validate_missing w.fs folder_path tags = _
    rw [validate_missing_eq, List.filter_flatMap]
  refine ⟨?_, ?_, ?_⟩
  · intro f
    rw [hmiss, List.mem_filter, Bool.not_eq_true']
  · intro hall
    rw [hmiss, List.filter_eq_nil_iff]
    intro f hf
    simp [hall f hf]
  · intro hone
    rw [hmiss]
    have hlen : ((tags.flatMap required_flags).filter
        (fun f => !(isfile w.fs (osPathJoin folder_path f)))).length = 1 := by
      rw [← List.countP_eq_length_filter]
      exact hone
    obtain ⟨f, hf⟩ := List.length_eq_one.mp hlen
    refine ⟨f, hf, ?_⟩
    have : f ∈ (tags.flatMap required_flags).filter
        (fun f => !(isfile w.fs (osPathJoin folder_path f))) := by
      rw [hf]; exact List.mem_singleton_self f
    rw [List.mem_filter, Bool.not_eq_true'] at this
    exact this

/-- Witness for C1: with all five `AAA` files present the missing-list is
empty; with only `AAA_republic.tga` absent it is exactly that one name. -/
theorem C1_witness :
    (validate_flags
        ⟨["gfx/GHO.tga", "gfx/AAA.tga", "gfx/AAA_fascist.tga",
          "gfx/AAA_communist.tga", "gfx/AAA_monarchy.tga",
          "gfx/AAA_republic.tga"], []⟩ "gfx" ["AAA"] false).1 = []
    ∧ ∃ f, (validate_flags
        ⟨["gfx/GHO.tga", "gfx/AAA.tga", "gfx/AAA_fascist.tga",
          "gfx/AAA_communist.tga", "gfx/AAA_monarchy.tga"], []⟩
        "gfx" ["AAA"] false).1 = [f]
      ∧ f ∈ (["AAA"] : List String).flatMap required_flags
      ∧ isfile ["gfx/GHO.tga", "gfx/AAA.tga", "gfx/AAA_fascist.tga",
          "gfx/AAA_communist.tga", "gfx/AAA_monarchy.tga"]
          (osPathJoin "gfx" f) = false :=
  ⟨(C1_missing_characterization
      ⟨["gfx/GHO.tga", "gfx/AAA.tga", "gfx/AAA_fascist.tga",
        "gfx/AAA_communist.tga", "gfx/AAA_monarchy.tga",
        "gfx/AAA_republic.tga"], []⟩ "gfx" ["AAA"] false).2.1 (by decide),
   (C1_missing_characterization
      ⟨["gfx/GHO.tga", "gfx/AAA.tga", "gfx/AAA_fascist.tga",
        "gfx/AAA_communist.tga", "gfx/AAA_monarchy.tga"], []⟩
      "gfx" ["AAA"] false).2.2 (by decide)⟩

/-- Claim C3: `validate_flags` existence-checks exactly 5×N candidate
filenames, identifier-major and suffix-minor with the fixed suffix order
base, fascist, communist, monarchy, republic, so the missing-list groups
all five variants of one identifier before any variant of the next. -/
theorem C3_candidate_order (w : World) (folder_path : String)
    (tags : List String) (auto_fix : Bool) :
    (tags.flatMap required_flags).length = 5 * tags.length
    ∧ (validate_flags w folder_path tags auto_fix).1
        = tags.flatMap (fun tag => (required_flags tag).filter
            (fun f => !(isfile w.fs (osPathJoin folder_path f))))
    ∧ ∀ t : String, required_flags t =
        [t ++ ".tga", t ++ "_fascist.tga", t ++ "_communist.tga",
         t ++ "_monarchy.tga", t ++ "_republic.tga"] := by
  refine ⟨?_, ?_, fun t => rfl⟩
  · induction tags with
    | nil => rfl
    | cons tag t ih =>
      simp only [List.flatMap_cons, List.length_append, ih,
        List.length_cons]
      simp [required_flags]
      ring
  · show validate_missing w.fs folder_path tags = _
    exact validate_missing_eq w.fs folder_path tags

/-- Claim C9: `validate_flags` performs no filesystem mutation — the file
list after the call is the one before it — and its only side effect is
appending printed output. -/
theorem C9_validate_no_mutation (w : World) (folder_path : String)
    (tags : List String) (auto_fix : Bool) :
    ((validate_flags w folder_path tags auto_fix).2).fs = w.fs
    ∧ ∃ printed, ((validate_flags w folder_path tags auto_fix).2).out
        = w.out ++ printed :=
  ⟨rfl, _, rfl⟩

/-- Claim C10: the `auto_fix` parameter is accepted but never read, so two
runs of `validate_flags` differing only in it return the same missing-list
and have the same effects. -/
theorem C10_auto_fix_unused (w : World) (folder_path : String)
    (tags : List String) :
    validate_flags w folder_path tags true
      = validate_flags w folder_path tags false := rfl

/-- Claim C4: when the template `GHO.tga` does not exist in the directory,
`create_missing_flags` returns failure immediately, leaving the filesystem
unchanged, regardless of the missing-list contents. -/
theorem C4_template_absent_fails (copyFail : String → Bool) (w : World)
    (folder_path : String) (missing_flags : List String)
    (h : isfile w.fs (osPathJoin folder_path "GHO.tga") = false) :
    (create_missing_flags copyFail w folder_path missing_flags).1 = false
    ∧ ((create_missing_flags copyFail w folder_path missing_flags).2).fs
        = w.fs := by
  simp [create_missing_flags, h]

/-- Witness for C4: with an empty filesystem (no template), provisioning
of `AAA.tga` fails and creates nothing. -/
theorem C4_witness :
    (create_missing_flags (fun _ => false) ⟨[], []⟩ "gfx" ["AAA.tga"]).1
        = false
    ∧ ((create_missing_flags (fun _ => false) ⟨[], []⟩ "gfx"
        ["AAA.tga"]).2).fs = ([] : List String) :=
  C4_template_absent_fails (fun _ => false) ⟨[], []⟩ "gfx" ["AAA.tga"]
    (by decide)

/-- Claim C6: with the template present, a failing copy does not abort the
loop — the created files are exactly the non-failing ones, in order, and
the filesystem gains exactly those — and the returned boolean is true iff
no individual copy failed. -/
theorem C6_copy_failures_tolerated (copyFail : String → Bool) (w : World)
    (folder_path : String) (missing_flags : List String)
    (h : isfile w.fs (osPathJoin folder_path "GHO.tga") = true) :
    ((create_missing_flags copyFail w folder_path missing_flags).1 = true ↔
       ∀ f ∈ missing_flags, copyFail (osPathJoin folder_path f) = false)
    ∧ (copy_loop copyFail folder_path missing_flags w).2.1
        = missing_flags.filter
            (fun f => !(copyFail (osPathJoin folder_path f)))
    ∧ ((copy_loop copyFail folder_path missing_flags w).2.2).fs
        = w.fs ++ (missing_flags.filter
            (fun f => !(copyFail (osPathJoin folder_path f)))).map
            (fun f => osPathJoin folder_path f) := by
  have hcl := copy_loop_spec copyFail folder_path missing_flags w
  refine ⟨?_, by rw [hcl], by rw [hcl]⟩
  have h1 : (create_missing_flags copyFail w folder_path missing_flags).1
      = missing_flags.all
          (fun f => !(copyFail (osPathJoin folder_path f))) := by
    simp [create_missing_flags, h, hcl]
  rw [h1, List.all_eq_true]
  simp only [Bool.not_eq_true']

/-- Witness for C6: the copy of `AAA.tga` fails but `BBB.tga` is still
created afterwards. -/
theorem C6_witness :
    (copy_loop (fun s => s == "gfx/AAA.tga") "gfx" ["AAA.tga", "BBB.tga"]
        ⟨["gfx/GHO.tga"], []⟩).2.1 = ["BBB.tga"] :=
  ((C6_copy_failures_tolerated (fun s => s == "gfx/AAA.tga") ⟨["gfx/GHO.tga"], []⟩
      "gfx" ["AAA.tga", "BBB.tga"] (by decide)).2.1).trans (by decide)

lemma revalidate_core (fs : List String) (folder_path : String)
    (tags : List String) :
    validate_missing
      (fs ++ (validate_missing fs folder_path tags).map
        (fun f => osPathJoin folder_path f))
      folder_path tags = [] := by
  rw [validate_missing_eq, List.flatMap_eq_nil_iff]
  intro tag htag
  rw [List.filter_eq_nil_iff]
  intro f hf
  suffices hmem : isfile
      (fs ++ (validate_missing fs folder_path tags).map
        (fun f => osPathJoin folder_path f))
      (osPathJoin folder_path f) = true by
    simp [hmem]
  rw [isfile_iff_mem, List.mem_append]
  by_cases hin : isfile fs (osPathJoin folder_path f) = true
  · exact Or.inl ((isfile_iff_mem _ _).mp hin)
  · have hin' : isfile fs (osPathJoin folder_path f) = false := by
      cases hb : isfile fs (osPathJoin folder_path f) with
      | true => exact absurd hb hin
      | false => rfl
    refine Or.inr (List.mem_map.mpr ⟨f, ?_, rfl⟩)
    rw [validate_missing_eq]
    exact List.mem_flatMap.mpr
      ⟨tag, htag, List.mem_filter.mpr ⟨hf, by simp [hin']⟩⟩

/-- Claim C5: when `create_missing_flags` succeeds on the missing-list
produced by a `validate_flags` pass, a subsequent `validate_flags` pass
over the same directory and tags returns an empty missing-list. -/
theorem C5_revalidate_empty (copyFail : String → Bool) (w : World)
    (folder_path : String) (tags : List String) (auto_fix : Bool)
    (h : (create_missing_flags copyFail
            (validate_flags w folder_path tags auto_fix).2 folder_path
            (validate_flags w folder_path tags auto_fix).1).1 = true) :
    (validate_flags (create_missing_flags copyFail
        (validate_flags w folder_path tags auto_fix).2 folder_path
        (validate_flags w folder_path tags auto_fix).1).2
      folder_path tags auto_fix).1 = [] := by
  have hw2fs : ((validate_flags w folder_path tags auto_fix).2).fs
      = w.fs := rfl
  have hm1 : (validate_flags w folder_path tags auto_fix).1
      = validate_missing w.fs folder_path tags := rfl
  cases hT : isfile w.fs (osPathJoin folder_path "GHO.tga") with
  | false =>
    exfalso
    have hfail : (create_missing_flags copyFail
        (validate_flags w folder_path tags auto_fix).2 folder_path
        (validate_flags w folder_path tags auto_fix).1).1 = false := by
      simp [create_missing_flags, hw2fs, hT]
    simp [hfail] at h
  | true =>
    have hall : (validate_missing w.fs folder_path tags).all
        (fun f => !(copyFail (osPathJoin folder_path f))) = true := by
      have h1 : (create_missing_flags copyFail
          (validate_flags w folder_path tags auto_fix).2 folder_path
          (validate_flags w folder_path tags auto_fix).1).1
          = (validate_missing w.fs folder_path tags).all
              (fun f => !(copyFail (osPathJoin folder_path f))) := by
        simp [create_missing_flags, hw2fs, hT, hm1, copy_loop_spec]
      exact h1.symm.trans h
    have hfilter : (validate_missing w.fs folder_path tags).filter
        (fun f => !(copyFail (osPathJoin folder_path f)))
        = validate_missing w.fs folder_path tags :=
      List.filter_eq_self.mpr (List.all_eq_true.mp hall)
    have hfs : ((create_missing_flags copyFail
        (validate_flags w folder_path tags auto_fix).2 folder_path
        (validate_flags w folder_path tags auto_fix).1).2).fs
        = w.fs ++ (validate_missing w.fs folder_path tags).map
            (fun f => osPathJoin folder_path f) := by
      simp [create_missing_flags, hw2fs, hT, hm1, copy_loop_spec, hfilter,
        apply_ite World.fs]
    show validate_missing ((create_missing_flags copyFail
        (validate_flags w folder_path tags auto_fix).2 folder_path
        (validate_flags w folder_path tags auto_fix).1).2).fs
        folder_path tags = []
    rw [hfs]
    exact revalidate_core w.fs folder_path tags

/-- Witness for C5: provisioning the five missing `AAA` files from a
directory holding only the template makes the second validation pass
return the empty missing-list. -/
theorem C5_witness :
    (validate_flags (create_missing_flags (fun _ => false)
        (validate_flags ⟨["gfx/GHO.tga"], []⟩ "gfx" ["AAA"] false).2 "gfx"
        (validate_flags ⟨["gfx/GHO.tga"], []⟩ "gfx" ["AAA"] false).1).2
      "gfx" ["AAA"] false).1 = [] :=
  C5_revalidate_empty (fun _ => false) ⟨["gfx/GHO.tga"], []⟩ "gfx" ["AAA"]
    false (by decide)

end FlagCheck
